import Mathlib

/-!
Verification of the tool-calling dispatch contract of the LocalLLM agent
(`src/main.py`, `src/llmfunctions.py`).

The embedding models:
  * JSON values (as produced by Python's `json.loads`);
  * the two tool implementations `schedule_meeting` and `fetch_weather`
    from `main.py` (the module whose copies the dispatcher actually calls),
    including Python's keyword-argument binding discipline for `f(**args)`;
  * the response dispatcher inside `FunctionCallingAgent.chat`
    (`main.py` lines 157-176): parse the assistant content as JSON, look the
    `name` up in `FUNCTION_IMPLEMENTATIONS`, call the implementation with the
    `arguments` mapping as keyword arguments, catch any exception into an
    error string, and otherwise fall back to the raw content;
  * the history bookkeeping of `chat` (`main.py` lines 144-178);
  * the HTTP endpoint of the spec's transport shell (absent from `src/`,
    modelled from the spec).

`json.loads` itself is treated as an oracle: the dispatcher is a function of
the assistant text together with its parse result (`Option Json`, `none`
meaning `json.JSONDecodeError`).  Python's `datetime.fromisoformat` is
modelled for the `YYYY-MM-DD` + separator + `HH[:MM[:SS]]` shapes the agent
builds (time-zone suffixes and fractional seconds are outside the model),
and `strftime` month/weekday names use the C locale, as Python's do.
-/

/-- JSON values, as returned by Python's `json.loads`.  Numbers are modelled
as integers (no claim exercises float-valued JSON); objects are key/value
lists with Python-dict semantics (later bindings shadow earlier ones). -/
inductive Json where
  | null : Json
  | bool (b : Bool) : Json
  | num (n : Int) : Json
  | str (s : String) : Json
  | arr (xs : List Json) : Json
  | obj (kvs : List (String × Json)) : Json

/-- Is the value a JSON object (a Python `dict`)?  `isinstance(x, dict)`. -/
def Json.isObj : Json → Bool
  | .obj _ => true
  | _ => false

/-- Python-dict lookup on a key/value list: the LAST binding of a key wins,
matching how `json.loads` and dict construction resolve duplicate keys. -/
def dictGet (kvs : List (String × Json)) (k : String) : Option Json :=
  kvs.foldl (fun acc p => if p.1 = k then some p.2 else acc) none

/-- Python `d.get(k, default)` on a dict. -/
def dictGetD (kvs : List (String × Json)) (k : String) (dflt : Json) : Json :=
  (dictGet kvs k).getD dflt

mutual
/-- Python `repr` of a JSON-derived value (used inside containers). -/
def pyRepr : Json → String
  | .null => "None"
  | .bool b => if b then "True" else "False"
  | .num n => toString n
  | .str s => "'" ++ s ++ "'"
  | .arr xs => "[" ++ pyReprList xs ++ "]"
  | .obj kvs => "\x7b" ++ pyReprObj kvs ++ "\x7d"

/-- Comma-joined `repr`s of list elements. -/
def pyReprList : List Json → String
  | [] => ""
  | [x] => pyRepr x
  | x :: xs => pyRepr x ++ ", " ++ pyReprList xs

/-- Comma-joined `repr`s of dict entries. -/
def pyReprObj : List (String × Json) → String
  | [] => ""
  | [(k, v)] => "'" ++ k ++ "': " ++ pyRepr v
  | (k, v) :: kvs => "'" ++ k ++ "': " ++ pyRepr v ++ ", " ++ pyReprObj kvs
end

/-- Python `str` of a JSON-derived value, as an f-string renders it:
a string renders itself (no quotes), everything else as its `repr`. -/
def pyStr : Json → String
  | .str s => s
  | v => pyRepr v

/-! ## A model of `datetime.fromisoformat` and `strftime` -/

/-- A naive datetime, what `datetime.fromisoformat` returns for the strings
the agent builds. -/
structure PyDateTime where
  year : Nat
  month : Nat
  day : Nat
  hour : Nat
  minute : Nat
  second : Nat
deriving DecidableEq

/-- Gregorian leap-year rule, as `datetime` uses. -/
def isLeap (y : Nat) : Bool :=
  (y % 4 == 0 && y % 100 != 0) || y % 400 == 0

/-- Number of days in a month, as `datetime` validates. -/
def daysInMonth (y m : Nat) : Nat :=
  if m = 2 then (if isLeap y then 29 else 28)
  else if m ∈ [4, 6, 9, 11] then 30 else 31

/-- Value of a decimal digit character, `none` for a non-digit. -/
def digitVal (c : Char) : Option Nat :=
  if c.isDigit then some (c.toNat - 48) else none

/-- Parse two decimal digits. -/
def twoDigits (c1 c2 : Char) : Option Nat := do
  let a ← digitVal c1
  let b ← digitVal c2
  pure (10 * a + b)

/-- Parse the time-of-day part accepted by `fromisoformat`:
`HH`, `HH:MM` or `HH:MM:SS`, with range validation.  (Fractional seconds
and time-zone suffixes are outside the model; the agent's prompts use
`HH:MM`.) -/
def parseTimePart : List Char → Option (Nat × Nat × Nat)
  | [h1, h2] => do
    let hh ← twoDigits h1 h2
    if hh ≤ 23 then pure (hh, 0, 0) else none
  | [h1, h2, ':', m1, m2] => do
    let hh ← twoDigits h1 h2
    let mm ← twoDigits m1 m2
    if hh ≤ 23 ∧ mm ≤ 59 then pure (hh, mm, 0) else none
  | [h1, h2, ':', m1, m2, ':', s1, s2] => do
    let hh ← twoDigits h1 h2
    let mm ← twoDigits m1 m2
    let ss ← twoDigits s1 s2
    if hh ≤ 23 ∧ mm ≤ 59 ∧ ss ≤ 59 then pure (hh, mm, ss) else none
  | _ => none

/-- Model of `datetime.fromisoformat` on the strings the agent builds:
ten date characters `YYYY-MM-DD` (validated: year ≥ 1, month 1..12,
day 1..days-in-month), one separator (`T`, as the agent inserts, or a
space), then a time part. -/
def fromisoformat (s : String) : Option PyDateTime :=
  match s.toList with
  | y1 :: y2 :: y3 :: y4 :: '-' :: m1 :: m2 :: '-' :: d1 :: d2 :: sep :: rest => do
    let yh ← twoDigits y1 y2
    let yl ← twoDigits y3 y4
    let y := 100 * yh + yl
    let m ← twoDigits m1 m2
    let d ← twoDigits d1 d2
    if 1 ≤ y ∧ 1 ≤ m ∧ m ≤ 12 ∧ 1 ≤ d ∧ d ≤ daysInMonth y m ∧ (sep = 'T' ∨ sep = ' ') then
      let (hh, mm, ss) ← parseTimePart rest
      pure ⟨y, m, d, hh, mm, ss⟩
    else none
  | _ => none

/-- Sakamoto's congruence table for the day of the week. -/
def sakamotoTable : List Nat := [0, 3, 2, 5, 0, 3, 5, 1, 4, 6, 2, 4]

/-- Day of the week of a Gregorian date, 0 = Sunday (Sakamoto's method). -/
def dayOfWeek (y m d : Nat) : Nat :=
  let y' := if m < 3 then y - 1 else y
  (y' + y' / 4 - y' / 100 + y' / 400 + sakamotoTable.getD (m - 1) 0 + d) % 7

/-- The `%A` weekday names (C locale, as CPython's `strftime` uses by default). -/
def weekdayNames : List String :=
  ["Sunday", "Monday", "Tuesday", "Wednesday", "Thursday", "Friday", "Saturday"]

/-- The `%B` month names (C locale). -/
def monthNames : List String :=
  ["January", "February", "March", "April", "May", "June", "July",
   "August", "September", "October", "November", "December"]

/-- Zero-padded two-digit rendering (`%d`, `%H`, `%M`). -/
def pad2 (n : Nat) : String :=
  if n < 10 then "0" ++ toString n else toString n

/-- Rendering `dt.strftime('%A, %B %d at %H:%M')` from `schedule_meeting`. -/
def strftimeMeeting (dt : PyDateTime) : String :=
  weekdayNames.getD (dayOfWeek dt.year dt.month dt.day) "" ++ ", " ++
    monthNames.getD (dt.month - 1) "" ++ " " ++ pad2 dt.day ++ " at " ++
    pad2 dt.hour ++ ":" ++ pad2 dt.minute

/-! ## The tool implementations (`src/main.py` lines 49-65) -/

/-- Python `", ".join(x)` on a JSON-derived value `x`: succeeds on an
iterable of strings (a list of strings; a string iterates its characters;
a dict iterates its keys, which are strings), raises `TypeError`
otherwise.  `Except.error` models the raised `TypeError`. -/
def pyJoinComma : Json → Except String String
  | .arr xs =>
    match xs.mapM (fun v => match v with | .str s => some s | _ => none) with
    | some strs => .ok (String.intercalate ", " strs)
    | none => .error "TypeError: sequence item: expected str instance"
  | .str s => .ok (String.intercalate ", " (s.toList.map (fun c => String.mk [c])))
  | .obj kvs => .ok (String.intercalate ", " (kvs.map (·.1)))
  | _ => .error "TypeError: can only join an iterable"

/-- The `ValueError` message `fromisoformat` raises. -/
def invalidIsoMsg (s : String) : String :=
  "Invalid isoformat string: '" ++ s ++ "'"

/-- The error string `schedule_meeting`'s `except` branch builds
(`main.py` line 55). -/
def scheduleErrString (details : String) : String :=
  "Error scheduling meeting: Invalid date or time format. Details: " ++ details

/-- Tool `schedule_meeting` (`main.py` lines 49-55): combine `date` and `time`
into `f"{date}T{time}"`, parse with `fromisoformat`, join the attendees,
and render the confirmation; a `ValueError` from parsing or a `TypeError`
from the join is caught inside the function and turned into an
error-describing string, so the function never raises.  (The Lean type is
total: every exception path ends in a returned string.) -/
def schedule_meeting (attendees date time topic : Json) : String :=
  let iso := pyStr date ++ "T" ++ pyStr time
  match fromisoformat iso with
  | none => scheduleErrString (invalidIsoMsg iso)
  | some dt =>
    match pyJoinComma attendees with
    | .error e => scheduleErrString e
    | .ok attendee_str =>
      " Meeting '" ++ pyStr topic ++ "' successfully scheduled for " ++
        strftimeMeeting dt ++ " with " ++ attendee_str ++ "."

/-- The Python comparison `units == "metric"`: true only for the exact
string `"metric"`; equality between a string and any other type of value is
`False` in Python. -/
def unitsIsMetric : Json → Bool
  | .str s => s = "metric"
  | _ => false

/-- Tool `fetch_weather` (`main.py` lines 57-60): canned result, `22`/`°C` when
`units == "metric"`, `72`/`°F` for every other value of `units`. -/
def fetch_weather (city units : Json) : String :=
  let temp : Nat := if unitsIsMetric units then 22 else 72
  let unit_label : String := if unitsIsMetric units then "°C" else "°F"
  "🌤️ The current temperature in " ++ pyStr city ++ " is " ++
    toString temp ++ unit_label ++ "."

/-! ## Keyword-argument binding for `f(**args)`

The dispatcher calls `function_to_call(**args)`.  Python binds the keys of
`args` to the function's named parameters: an unexpected key or a missing
required parameter raises a `TypeError` at the call site (inside the
dispatcher's inner `try`), before the function body runs.  `Except.error`
models that raised `TypeError`. -/

/-- Call `schedule_meeting(**kwargs)`: all four parameters are required and
no other keyword is accepted. -/
def schedule_meeting_call (kwargs : List (String × Json)) : Except String String :=
  if kwargs.any (fun p =>
      p.1 ≠ "attendees" ∧ p.1 ≠ "date" ∧ p.1 ≠ "time" ∧ p.1 ≠ "topic") then
    .error "TypeError: schedule_meeting() got an unexpected keyword argument"
  else
    match dictGet kwargs "attendees", dictGet kwargs "date",
        dictGet kwargs "time", dictGet kwargs "topic" with
    | some attendees, some date, some time, some topic =>
      .ok (schedule_meeting attendees date time topic)
    | _, _, _, _ =>
      .error "TypeError: schedule_meeting() missing required positional arguments"

/-- Call `fetch_weather(**kwargs)`: `city` is required, `units` defaults to
the string `"metric"`, no other keyword is accepted. -/
def fetch_weather_call (kwargs : List (String × Json)) : Except String String :=
  if kwargs.any (fun p => p.1 ≠ "city" ∧ p.1 ≠ "units") then
    .error "TypeError: fetch_weather() got an unexpected keyword argument"
  else
    match dictGet kwargs "city" with
    | none => .error "TypeError: fetch_weather() missing 1 required positional argument: 'city'"
    | some city => .ok (fetch_weather city (dictGetD kwargs "units" (Json.str "metric")))

/-- Registry `FUNCTION_IMPLEMENTATIONS` (`main.py` lines 62-65): the mapping of
tool names to implementations. -/
def FUNCTION_IMPLEMENTATIONS :
    List (String × (List (String × Json) → Except String String)) :=
  [("schedule_meeting", schedule_meeting_call),
   ("fetch_weather", fetch_weather_call)]

/-! ## The response dispatcher (`main.py` lines 154-176) -/

/-- Outcome of one dispatch: the no-tool-call path returning the raw
content, a tool invocation that returned an answer, or a tool invocation
whose exception was caught (`main.py` lines 169-171). -/
inductive DispatchResult where
  | plainText (content : String)
  | toolOutput (name answer : String)
  | toolError (name errMsg : String)

/-- The string `chat` ends up with as `final_answer`. -/
def finalAnswer : DispatchResult → String
  | .plainText c => c
  | .toolOutput _ a => a
  | .toolError n e => "Error executing tool " ++ n ++ ": " ++ e

/-- Which tool implementation the dispatcher invoked, if any
(`none` on the no-tool-call path). -/
def invokedTool : DispatchResult → Option String
  | .plainText _ => none
  | .toolOutput n _ => some n
  | .toolError n _ => some n

/-- Calling `function_to_call(**args)` with `args` an arbitrary JSON value: a
non-dict raises `TypeError: argument after ** must be a mapping` at the
call site; a dict is bound as keyword arguments. -/
def callWithKwargs (f : List (String × Json) → Except String String)
    (args : Json) : Except String String :=
  match args with
  | .obj kwargs => f kwargs
  | _ => .error "TypeError: argument after ** must be a mapping"

/-- The dispatcher's inner `try` (`main.py` lines 165-171): run the call,
wrap a raised exception `e` into `f"Error executing tool {fn_name}: {e}"`. -/
def dispatchCall (fn_name : String)
    (f : List (String × Json) → Except String String) (args : Json) :
    DispatchResult :=
  match callWithKwargs f args with
  | .ok ans => .toolOutput fn_name ans
  | .error e => .toolError fn_name e

/-- The response dispatcher (`main.py` lines 154-176).  `content` is the
assistant text; `parsed` is the oracle result of `json.loads(content)`
(`none` for `json.JSONDecodeError`).  The code takes the tool path exactly
when the parse yields a dict whose `"name"` value is a string registered in
`FUNCTION_IMPLEMENTATIONS`; every other case — parse failure, a non-dict
value, a missing `name`, a non-string `name` (an unhashable `name` value
raises a `TypeError` at the `in` test, caught by the same outer `except`),
or an unregistered name — falls through to the raw content. -/
def dispatch (content : String) (parsed : Option Json) : DispatchResult :=
  match parsed with
  | none => .plainText content
  | some tool_call_data =>
    match tool_call_data with
    | .obj fields =>
      match dictGet fields "name" with
      | some (Json.str fn_name) =>
        match FUNCTION_IMPLEMENTATIONS.lookup fn_name with
        | some function_to_call =>
          dispatchCall fn_name function_to_call (dictGetD fields "arguments" (Json.obj []))
        | none => .plainText content
      | _ => .plainText content
    | _ => .plainText content

/-! ## The `chat` method's conversation bookkeeping (`main.py` 144-178)

The model inference (`self.llm.create_chat_completion`) is the external
collaborator: its reply (`choice`, the raw message dict) is a parameter, as
is the `json.loads` oracle `parse`.  `chat` appends the user message, the
raw reply, and the assistant message carrying the final answer. -/

/-- A chat-history entry is a JSON object (a message dict). -/
def userMessage (q : String) : Json :=
  Json.obj [("role", Json.str "user"), ("content", Json.str q)]

/-- The assistant entry appended with the final answer (`main.py` 177). -/
def assistantMessage (fa : Json) : Json :=
  Json.obj [("role", Json.str "assistant"), ("content", fa)]

/-- Extraction `choice.get("content", "")` followed by the dispatcher: a string content
is dispatched (its `json.loads` result coming from the oracle `parse`); a
non-string content makes `json.loads` raise `TypeError`, caught by the
outer `except`, so `final_answer = content` unchanged. -/
def chatFinalAnswer (parse : String → Option Json)
    (choice : List (String × Json)) : Json :=
  match dictGetD choice "content" (Json.str "") with
  | .str s => Json.str (finalAnswer (dispatch s (parse s)))
  | c => c

/-- Method `FunctionCallingAgent.chat` (`main.py` lines 144-178), from the point
the model reply `choice` is available: returns the new history and the
returned `final_answer`. -/
def chat (parse : String → Option Json) (history : List Json)
    (user_query : String) (choice : List (String × Json)) :
    List Json × Json :=
  let fa := chatFinalAnswer parse choice
  (history ++ [userMessage user_query, Json.obj choice, assistantMessage fa], fa)

/-- The initial chat history (`main.py` line 88). -/
def initialHistory (system_prompt : String) : List Json :=
  [Json.obj [("role", Json.str "system"), ("content", Json.str system_prompt)]]

/-! ## The HTTP transport shell -/

/-- Modelled from the spec: the HTTP variant of the transport shell
(`POST /chat`) is not under `src/` (only the CLI loop is); spec sections 4.5
and 6 define it.  The request body is the parsed JSON object; `agent` is the
underlying chat call, `Except.error` modelling an unhandled exception.
Missing or empty `message` gives `400` with an `error` field; success gives
`200` with a `response` string; an unhandled exception gives
`500 ("error": "An internal error occurred.")`. -/
def chatEndpoint (body : List (String × Json))
    (agent : String → Except String String) : Nat × Json :=
  match dictGet body "message" with
  | some (Json.str m) =>
    if m = "" then (400, Json.obj [("error", Json.str "Message cannot be empty.")])
    else
      match agent m with
      | .ok r => (200, Json.obj [("response", Json.str r)])
      | .error _ => (500, Json.obj [("error", Json.str "An internal error occurred.")])
  | _ => (400, Json.obj [("error", Json.str "Missing message key.")])

/-! ## Shared lemmas -/

/-- String concatenation is associative. -/
theorem strAppendAssoc (a b c : String) : a ++ b ++ c = a ++ (b ++ c) := by
  rcases a with ⟨la⟩; rcases b with ⟨lb⟩; rcases c with ⟨lc⟩
  show String.mk (la ++ lb ++ lc) = String.mk (la ++ (lb ++ lc))
  rw [List.append_assoc]

/-- Unfolding `dictGet` on a cons cell. -/
theorem dictGet_cons (p : String × Json) (kvs : List (String × Json)) (k : String) :
    dictGet (p :: kvs) k =
      (if p.1 = k then kvs.foldl (fun acc q => if q.1 = k then some q.2 else acc) (some p.2)
       else dictGet kvs k) := by
  by_cases h : p.1 = k <;> simp [dictGet, h]

/-- The `dictGet` fold never forgets a found value. -/
theorem dictGet_foldl_some (kvs : List (String × Json)) (k : String) (v : Json) :
    (kvs.foldl (fun acc q => if q.1 = k then some q.2 else acc) (some v)).isSome := by
  induction kvs generalizing v with
  | nil => rfl
  | cons q rest ih =>
    by_cases h : q.1 = k <;> simp [List.foldl, h, ih]

/-- If a key is absent, the `dictGet` fold keeps its accumulator. -/
theorem dictGet_foldl_of_absent (kvs : List (String × Json)) (k : String) (v : Json)
    (h : dictGet kvs k = none) :
    kvs.foldl (fun acc q => if q.1 = k then some q.2 else acc) (some v) = some v := by
  induction kvs generalizing v with
  | nil => rfl
  | cons q rest ih =>
    rw [dictGet_cons] at h
    by_cases hq : q.1 = k
    · rw [if_pos hq] at h
      have := dictGet_foldl_some rest k q.2
      rw [h] at this
      cases this
    · rw [if_neg hq] at h
      simp only [List.foldl, if_neg hq]
      exact ih v h

/-- If the dispatcher invoked a tool, that name is registered. -/
theorem invokedTool_registered (content : String) (parsed : Option Json) (n : String)
    (h : invokedTool (dispatch content parsed) = some n) :
    (FUNCTION_IMPLEMENTATIONS.lookup n).isSome := by
  cases parsed with
  | none => simp [dispatch, invokedTool] at h
  | some j =>
    cases j with
    | obj fields =>
      simp only [dispatch] at h
      cases hname : dictGet fields "name" with
      | none => simp only [hname] at h; simp [invokedTool] at h
      | some v =>
        simp only [hname] at h
        cases v with
        | str s =>
          cases hlook : FUNCTION_IMPLEMENTATIONS.lookup s with
          | none => simp only [hlook] at h; simp [invokedTool] at h
          | some f =>
            simp only [hlook] at h
            unfold dispatchCall at h
            cases hc : callWithKwargs f (dictGetD fields "arguments" (Json.obj [])) with
            | ok a => simp only [hc] at h; simp [invokedTool] at h; rw [← h, hlook]; rfl
            | error e => simp only [hc] at h; simp [invokedTool] at h; rw [← h, hlook]; rfl
        | null => simp [invokedTool] at h
        | bool b => simp [invokedTool] at h
        | num m => simp [invokedTool] at h
        | arr xs => simp [invokedTool] at h
        | obj kvs => simp [invokedTool] at h
    | null => simp [dispatch, invokedTool] at h
    | bool b => simp [dispatch, invokedTool] at h
    | num m => simp [dispatch, invokedTool] at h
    | str s => simp [dispatch, invokedTool] at h
    | arr xs => simp [dispatch, invokedTool] at h

/-- C1: for every assistant text whose parse fails (`none`) or yields a
non-mapping JSON value, the dispatcher returns the original text unchanged
and invokes no tool implementation. -/
theorem dispatch_non_mapping_passthrough (content : String) (parsed : Option Json)
    (h : ∀ j ∈ parsed, j.isObj = false) :
    dispatch content parsed = DispatchResult.plainText content ∧
    invokedTool (dispatch content parsed) = none := by
  cases parsed with
  | none => exact ⟨rfl, rfl⟩
  | some j =>
    have hj : j.isObj = false := h j rfl
    cases j with
    | obj kvs => simp [Json.isObj] at hj
    | null => exact ⟨rfl, rfl⟩
    | bool b => exact ⟨rfl, rfl⟩
    | num m => exact ⟨rfl, rfl⟩
    | str s => exact ⟨rfl, rfl⟩
    | arr xs => exact ⟨rfl, rfl⟩

/-- Witness for C1: the non-JSON text `"Hello there"` (parse failure)
passes through unchanged, no tool invoked. -/
theorem dispatch_non_mapping_passthrough_witness :
    dispatch "Hello there" none = DispatchResult.plainText "Hello there" ∧
    invokedTool (dispatch "Hello there" none) = none :=
  dispatch_non_mapping_passthrough "Hello there" none (by intro j hj; cases hj)

/-- C2: a parsed mapping whose `name` is missing, or names no registered
implementation, passes through unchanged with no tool invoked; and whenever
a tool is invoked, its name is a key of `FUNCTION_IMPLEMENTATIONS`. -/
theorem dispatch_unknown_name_passthrough (content : String)
    (fields : List (String × Json))
    (h : ∀ s, dictGet fields "name" = some (Json.str s) →
      FUNCTION_IMPLEMENTATIONS.lookup s = none) :
    dispatch content (some (Json.obj fields)) = DispatchResult.plainText content ∧
    invokedTool (dispatch content (some (Json.obj fields))) = none ∧
    ∀ parsed n, invokedTool (dispatch content parsed) = some n →
      (FUNCTION_IMPLEMENTATIONS.lookup n).isSome := by
  have main : dispatch content (some (Json.obj fields)) = DispatchResult.plainText content := by
    simp only [dispatch]
    cases hname : dictGet fields "name" with
    | none => rfl
    | some v =>
      cases v with
      | str s => simp [h s hname]
      | null => rfl
      | bool b => rfl
      | num m => rfl
      | arr xs => rfl
      | obj kvs => rfl
  refine ⟨main, ?_, fun parsed n hn => invokedTool_registered content parsed n hn⟩
  rw [main]; rfl

/-- Witness for C2: `{"name": "delete_universe"}` is not a registered tool;
the text passes through unchanged. -/
theorem dispatch_unknown_name_passthrough_witness :
    dispatch "x" (some (Json.obj [("name", Json.str "delete_universe")])) =
      DispatchResult.plainText "x" ∧
    invokedTool (dispatch "x" (some (Json.obj [("name", Json.str "delete_universe")]))) =
      none ∧
    ∀ parsed n, invokedTool (dispatch "x" parsed) = some n →
      (FUNCTION_IMPLEMENTATIONS.lookup n).isSome :=
  dispatch_unknown_name_passthrough "x" [("name", Json.str "delete_universe")]
    (by intro s hs
        have : "delete_universe" = s := by
          simpa [dictGet] using hs
        rw [← this]; rfl)

/-- C3: when a registered tool's invocation raises, the dispatcher catches
the exception and produces the `"Error executing tool {fn}: {e}"` string —
a textual answer naming the failing tool and describing the error — rather
than propagating (the Lean `dispatch` is total: every exception path ends
in a `DispatchResult`). -/
theorem dispatch_tool_error_caught (content : String) (fields : List (String × Json))
    (fn : String) (f : List (String × Json) → Except String String) (e : String)
    (h1 : dictGet fields "name" = some (Json.str fn))
    (h2 : FUNCTION_IMPLEMENTATIONS.lookup fn = some f)
    (h3 : callWithKwargs f (dictGetD fields "arguments" (Json.obj [])) = Except.error e) :
    dispatch content (some (Json.obj fields)) = DispatchResult.toolError fn e ∧
    finalAnswer (dispatch content (some (Json.obj fields))) =
      "Error executing tool " ++ fn ++ ": " ++ e ∧
    ∃ a b, finalAnswer (dispatch content (some (Json.obj fields))) = a ++ fn ++ b := by
  have main : dispatch content (some (Json.obj fields)) = DispatchResult.toolError fn e := by
    simp only [dispatch, h1, h2, dispatchCall, h3]
  refine ⟨main, by rw [main]; rfl, ?_⟩
  exact ⟨"Error executing tool ", ": " ++ e,
    by rw [main]; exact strAppendAssoc ("Error executing tool " ++ fn) ": " e⟩

/-- Witness for C3: calling `fetch_weather` with no arguments raises a
`TypeError` (missing `city`), which the dispatcher turns into an error
string naming the tool. -/
theorem dispatch_tool_error_caught_witness :
    dispatch "t" (some (Json.obj [("name", Json.str "fetch_weather")])) =
      DispatchResult.toolError "fetch_weather"
        "TypeError: fetch_weather() missing 1 required positional argument: 'city'" ∧
    finalAnswer (dispatch "t" (some (Json.obj [("name", Json.str "fetch_weather")]))) =
      "Error executing tool " ++ "fetch_weather" ++ ": " ++
        "TypeError: fetch_weather() missing 1 required positional argument: 'city'" ∧
    ∃ a b, finalAnswer (dispatch "t" (some (Json.obj [("name", Json.str "fetch_weather")]))) =
      a ++ "fetch_weather" ++ b :=
  dispatch_tool_error_caught "t" [("name", Json.str "fetch_weather")]
    "fetch_weather" fetch_weather_call
    "TypeError: fetch_weather() missing 1 required positional argument: 'city'"
    rfl rfl rfl

/-- C4: whenever the combined `f"{date}T{time}"` string is not a valid
ISO-8601 timestamp, `schedule_meeting` returns the error-describing string
of its `except` branch; it raises nothing (it is a total function into
`String`). -/
theorem schedule_meeting_invalid_date_error (attendees date time topic : Json)
    (h : fromisoformat (pyStr date ++ "T" ++ pyStr time) = none) :
    schedule_meeting attendees date time topic =
      scheduleErrString (invalidIsoMsg (pyStr date ++ "T" ++ pyStr time)) ∧
    ∃ rest, schedule_meeting attendees date time topic =
      "Error scheduling meeting: Invalid date or time format. Details: " ++ rest := by
  have main : schedule_meeting attendees date time topic =
      scheduleErrString (invalidIsoMsg (pyStr date ++ "T" ++ pyStr time)) := by
    simp only [schedule_meeting, h]
  exact ⟨main, invalidIsoMsg (pyStr date ++ "T" ++ pyStr time), main⟩

/-- Witness for C4: `date = "not-a-date"` fails to parse; the function
returns the error string. -/
theorem schedule_meeting_invalid_date_error_witness :
    schedule_meeting (Json.arr [Json.str "A"]) (Json.str "not-a-date")
        (Json.str "14:00") (Json.str "Sync") =
      scheduleErrString (invalidIsoMsg
        (pyStr (Json.str "not-a-date") ++ "T" ++ pyStr (Json.str "14:00"))) ∧
    ∃ rest, schedule_meeting (Json.arr [Json.str "A"]) (Json.str "not-a-date")
        (Json.str "14:00") (Json.str "Sync") =
      "Error scheduling meeting: Invalid date or time format. Details: " ++ rest :=
  schedule_meeting_invalid_date_error (Json.arr [Json.str "A"]) (Json.str "not-a-date")
    (Json.str "14:00") (Json.str "Sync") rfl

/-- C5: a well-formed `fetch_weather` call for Paris dispatches to the tool
and answers with a string containing `"Paris"` and the metric temperature
`22`. -/
theorem dispatch_fetch_weather_paris (content : String) (fields : List (String × Json))
    (h1 : dictGet fields "name" = some (Json.str "fetch_weather"))
    (h2 : dictGet fields "arguments" = some (Json.obj [("city", Json.str "Paris")])) :
    finalAnswer (dispatch content (some (Json.obj fields))) =
      "🌤️ The current temperature in Paris is 22°C." ∧
    (∃ a b, finalAnswer (dispatch content (some (Json.obj fields))) = a ++ "Paris" ++ b) ∧
    (∃ a b, finalAnswer (dispatch content (some (Json.obj fields))) = a ++ "22" ++ b) := by
  have main : dispatch content (some (Json.obj fields)) =
      DispatchResult.toolOutput "fetch_weather"
        "🌤️ The current temperature in Paris is 22°C." := by
    simp only [dispatch, h1, dictGetD, h2]
    rfl
  refine ⟨by rw [main]; rfl, ?_, ?_⟩
  · exact ⟨"🌤️ The current temperature in ", " is 22°C.", by rw [main]; rfl⟩
  · exact ⟨"🌤️ The current temperature in Paris is ", "°C.", by rw [main]; rfl⟩

/-- Witness for C5: the concrete tool-call object for Paris. -/
theorem dispatch_fetch_weather_paris_witness :
    finalAnswer (dispatch "t" (some (Json.obj [("name", Json.str "fetch_weather"),
        ("arguments", Json.obj [("city", Json.str "Paris")])]))) =
      "🌤️ The current temperature in Paris is 22°C." ∧
    (∃ a b, finalAnswer (dispatch "t" (some (Json.obj [("name", Json.str "fetch_weather"),
        ("arguments", Json.obj [("city", Json.str "Paris")])]))) = a ++ "Paris" ++ b) ∧
    (∃ a b, finalAnswer (dispatch "t" (some (Json.obj [("name", Json.str "fetch_weather"),
        ("arguments", Json.obj [("city", Json.str "Paris")])]))) = a ++ "22" ++ b) :=
  dispatch_fetch_weather_paris "t"
    [("name", Json.str "fetch_weather"), ("arguments", Json.obj [("city", Json.str "Paris")])]
    rfl rfl

/-- C6: the well-formed `schedule_meeting` call for the Sync meeting
dispatches to the tool and answers with the confirmation string containing
`"Sync"`, `"A, B"`, and the weekday-formatted rendering
`"Wednesday, May 01 at 14:00"` of 2024-05-01 14:00. -/
theorem dispatch_schedule_meeting_sync (content : String) (fields : List (String × Json))
    (h1 : dictGet fields "name" = some (Json.str "schedule_meeting"))
    (h2 : dictGet fields "arguments" = some (Json.obj
      [("attendees", Json.arr [Json.str "A", Json.str "B"]),
       ("date", Json.str "2024-05-01"), ("time", Json.str "14:00"),
       ("topic", Json.str "Sync")])) :
    finalAnswer (dispatch content (some (Json.obj fields))) =
      " Meeting 'Sync' successfully scheduled for Wednesday, May 01 at 14:00 with A, B." ∧
    (∃ a b, finalAnswer (dispatch content (some (Json.obj fields))) = a ++ "Sync" ++ b) ∧
    (∃ a b, finalAnswer (dispatch content (some (Json.obj fields))) = a ++ "A, B" ++ b) ∧
    (∃ a b, finalAnswer (dispatch content (some (Json.obj fields))) =
      a ++ "Wednesday, May 01 at 14:00" ++ b) := by
  have main : dispatch content (some (Json.obj fields)) =
      DispatchResult.toolOutput "schedule_meeting"
        " Meeting 'Sync' successfully scheduled for Wednesday, May 01 at 14:00 with A, B." := by
    simp only [dispatch, h1, dictGetD, h2]
    rfl
  refine ⟨by rw [main]; rfl, ?_, ?_, ?_⟩
  · exact ⟨" Meeting '",
      "' successfully scheduled for Wednesday, May 01 at 14:00 with A, B.",
      by rw [main]; rfl⟩
  · exact ⟨" Meeting 'Sync' successfully scheduled for Wednesday, May 01 at 14:00 with ",
      ".", by rw [main]; rfl⟩
  · exact ⟨" Meeting 'Sync' successfully scheduled for ", " with A, B.",
      by rw [main]; rfl⟩

/-- Witness for C6: the concrete tool-call object of the claim. -/
theorem dispatch_schedule_meeting_sync_witness :
    finalAnswer (dispatch "t" (some (Json.obj [("name", Json.str "schedule_meeting"),
        ("arguments", Json.obj
          [("attendees", Json.arr [Json.str "A", Json.str "B"]),
           ("date", Json.str "2024-05-01"), ("time", Json.str "14:00"),
           ("topic", Json.str "Sync")])]))) =
      " Meeting 'Sync' successfully scheduled for Wednesday, May 01 at 14:00 with A, B." ∧
    (∃ a b, finalAnswer (dispatch "t" (some (Json.obj [("name", Json.str "schedule_meeting"),
        ("arguments", Json.obj
          [("attendees", Json.arr [Json.str "A", Json.str "B"]),
           ("date", Json.str "2024-05-01"), ("time", Json.str "14:00"),
           ("topic", Json.str "Sync")])]))) = a ++ "Sync" ++ b) ∧
    (∃ a b, finalAnswer (dispatch "t" (some (Json.obj [("name", Json.str "schedule_meeting"),
        ("arguments", Json.obj
          [("attendees", Json.arr [Json.str "A", Json.str "B"]),
           ("date", Json.str "2024-05-01"), ("time", Json.str "14:00"),
           ("topic", Json.str "Sync")])]))) = a ++ "A, B" ++ b) ∧
    (∃ a b, finalAnswer (dispatch "t" (some (Json.obj [("name", Json.str "schedule_meeting"),
        ("arguments", Json.obj
          [("attendees", Json.arr [Json.str "A", Json.str "B"]),
           ("date", Json.str "2024-05-01"), ("time", Json.str "14:00"),
           ("topic", Json.str "Sync")])]))) = a ++ "Wednesday, May 01 at 14:00" ++ b) :=
  dispatch_schedule_meeting_sync "t"
    [("name", Json.str "schedule_meeting"),
     ("arguments", Json.obj
       [("attendees", Json.arr [Json.str "A", Json.str "B"]),
        ("date", Json.str "2024-05-01"), ("time", Json.str "14:00"),
        ("topic", Json.str "Sync")])]
    rfl rfl

/-- C7: a recognized tool name with no `arguments` key is invoked with the
empty keyword-argument mapping — and the dispatch result is identical to
what it would be had the object carried `"arguments": {}`. -/
theorem dispatch_missing_arguments_defaults_empty (content : String)
    (fields : List (String × Json)) (fn : String)
    (f : List (String × Json) → Except String String)
    (h1 : dictGet fields "name" = some (Json.str fn))
    (h2 : FUNCTION_IMPLEMENTATIONS.lookup fn = some f)
    (h3 : dictGet fields "arguments" = none) :
    dispatch content (some (Json.obj fields)) = dispatchCall fn f (Json.obj []) ∧
    dispatch content (some (Json.obj fields)) =
      dispatch content (some (Json.obj (("arguments", Json.obj []) :: fields))) := by
  have hargs : dictGetD fields "arguments" (Json.obj []) = Json.obj [] := by
    simp [dictGetD, h3]
  have main : dispatch content (some (Json.obj fields)) = dispatchCall fn f (Json.obj []) := by
    simp only [dispatch, h1, h2, hargs]
  refine ⟨main, main.trans ?_⟩
  have hname' : dictGet (("arguments", Json.obj []) :: fields) "name" =
      some (Json.str fn) := by
    rw [dictGet_cons, if_neg (by decide)]
    exact h1
  have hargs' : dictGetD (("arguments", Json.obj []) :: fields) "arguments" (Json.obj []) =
      Json.obj [] := by
    unfold dictGetD
    rw [dictGet_cons, if_pos rfl, dictGet_foldl_of_absent fields "arguments" (Json.obj []) h3]
    rfl
  simp only [dispatch, hname', h2, hargs']

/-- Witness for C7: `{"name": "fetch_weather"}` with no `arguments` key is
called with `{}` (and fails there for the missing `city`, identically on
both sides). -/
theorem dispatch_missing_arguments_defaults_empty_witness :
    dispatch "t" (some (Json.obj [("name", Json.str "fetch_weather")])) =
      dispatchCall "fetch_weather" fetch_weather_call (Json.obj []) ∧
    dispatch "t" (some (Json.obj [("name", Json.str "fetch_weather")])) =
      dispatch "t" (some (Json.obj [("arguments", Json.obj []),
        ("name", Json.str "fetch_weather")])) :=
  dispatch_missing_arguments_defaults_empty "t" [("name", Json.str "fetch_weather")]
    "fetch_weather" fetch_weather_call rfl rfl rfl

/-- C9: `fetch_weather` returns the imperial canned result (72 °F) for
EVERY `units` value other than the exact string `"metric"` — including
values outside the schema's declared enum such as `"kelvin"`; the enum is
not enforced by the implementation. -/
theorem fetch_weather_nonmetric_imperial (city units : Json)
    (h : units ≠ Json.str "metric") :
    fetch_weather city units =
      "🌤️ The current temperature in " ++ pyStr city ++ " is " ++ "72" ++ "°F" ++ "." ∧
    ∃ a b, fetch_weather city units = a ++ "72°F" ++ b := by
  have hm : unitsIsMetric units = false := by
    cases units with
    | str s =>
      have hs : ¬ (s = "metric") := fun e => h (by rw [e])
      simp [unitsIsMetric, hs]
    | null => rfl
    | bool b => rfl
    | num n => rfl
    | arr xs => rfl
    | obj kvs => rfl
  have main : fetch_weather city units =
      "🌤️ The current temperature in " ++ pyStr city ++ " is " ++ "72" ++ "°F" ++ "." := by
    unfold fetch_weather
    rw [hm]
    rfl
  refine ⟨main, "🌤️ The current temperature in " ++ pyStr city ++ " is ", ".", ?_⟩
  rw [main, strAppendAssoc ("🌤️ The current temperature in " ++ pyStr city ++ " is ") "72" "°F"]
  rfl

/-- Witness for C9: `units = "kelvin"` (outside the enum) yields 72 °F. -/
theorem fetch_weather_nonmetric_imperial_witness :
    fetch_weather (Json.str "Oslo") (Json.str "kelvin") =
      "🌤️ The current temperature in " ++ pyStr (Json.str "Oslo") ++ " is " ++
        "72" ++ "°F" ++ "." ∧
    ∃ a b, fetch_weather (Json.str "Oslo") (Json.str "kelvin") = a ++ "72°F" ++ b :=
  fetch_weather_nonmetric_imperial (Json.str "Oslo") (Json.str "kelvin") (by simp)

/-- C8 (modelled from the spec; the HTTP handler is not under `src/`):
`POST /chat` yields 400 with an `error` field when `message` is missing or
empty, 200 with a `response` string on success, and 500 with
`"An internal error occurred."` on an unhandled exception. -/
theorem chatEndpoint_contract (body : List (String × Json))
    (agent : String → Except String String) :
    (dictGet body "message" = none →
      chatEndpoint body agent =
        (400, Json.obj [("error", Json.str "Missing message key.")])) ∧
    (dictGet body "message" = some (Json.str "") →
      chatEndpoint body agent =
        (400, Json.obj [("error", Json.str "Message cannot be empty.")])) ∧
    (∀ m r, dictGet body "message" = some (Json.str m) → m ≠ "" →
      agent m = Except.ok r →
      chatEndpoint body agent = (200, Json.obj [("response", Json.str r)])) ∧
    (∀ m e, dictGet body "message" = some (Json.str m) → m ≠ "" →
      agent m = Except.error e →
      chatEndpoint body agent =
        (500, Json.obj [("error", Json.str "An internal error occurred.")])) := by
  refine ⟨?_, ?_, ?_, ?_⟩
  · intro h; simp only [chatEndpoint, h]
  · intro h; simp [chatEndpoint, h]
  · intro m r hm hne hok
    simp only [chatEndpoint, hm, if_neg hne, hok]
  · intro m e hm hne herr
    simp only [chatEndpoint, hm, if_neg hne, herr]

/-- Witness for C8: an empty `{}` body is rejected with 400 and an error
field. -/
theorem chatEndpoint_contract_witness :
    chatEndpoint [] (fun m => Except.ok m) =
      (400, Json.obj [("error", Json.str "Missing message key.")]) :=
  (chatEndpoint_contract [] (fun m => Except.ok m)).1 rfl

/-- C10: every chat call appends exactly three entries to the history —
the user query, the raw model reply, and the assistant entry with the
final answer — leaving everything before them (in particular the initial
system message) unmodified. -/
theorem chat_appends_three (parse : String → Option Json) (history : List Json)
    (user_query : String) (choice : List (String × Json)) :
    (chat parse history user_query choice).1 =
      history ++ [userMessage user_query, Json.obj choice,
        assistantMessage (chat parse history user_query choice).2] ∧
    (chat parse history user_query choice).1.length = history.length + 3 ∧
    ∀ sp, (chat parse (initialHistory sp) user_query choice).1.head? =
      some (Json.obj [("role", Json.str "system"), ("content", Json.str sp)]) := by
  refine ⟨rfl, by simp [chat], fun sp => by simp [chat, initialHistory]⟩

/-- Witness for C10 at a concrete call: the no-tool reply `"hi"` appended
after the system message. -/
theorem chat_appends_three_witness :
    (chat (fun _ => none) (initialHistory "sys") "q"
        [("role", Json.str "assistant"), ("content", Json.str "hi")]).1 =
      initialHistory "sys" ++
        [userMessage "q",
         Json.obj [("role", Json.str "assistant"), ("content", Json.str "hi")],
         assistantMessage (chat (fun _ => none) (initialHistory "sys") "q"
           [("role", Json.str "assistant"), ("content", Json.str "hi")]).2] :=
  (chat_appends_three (fun _ => none) (initialHistory "sys") "q"
    [("role", Json.str "assistant"), ("content", Json.str "hi")]).1
